import Mathlib

/-!
Shallow embedding of the job-progress reconciliation core of the
prism-platform frontend, and proofs of the specification's claims about it.

Embedded sources:
 - src/frontend/src/api/streams.ts   (useJobResultStream: the stream hook)
 - src/frontend/src/pages/job.tsx    (ChipStatus, JobPage)
 - the snapshot poller (the generated api-client wrapper around the SWR
   data-fetching hook) is not among the provided sources; it is modelled
   from the spec where noted.
-/

namespace Prism

/-- A per-device status event as produced by applying JSON.parse to a pushed
payload (streams.ts, interface StreamEvent).  Parsed JSON objects may lack
any field, so every field is optional here; the TypeScript interface types
all of them as strings. -/
structure StreamEvent where
  device_serial : Option String := none
  status : Option String := none
  message : Option String := none
  timestamp : Option String := none
  trace_id : Option String := none
deriving DecidableEq

/-- JavaScript truthiness of a string-or-undefined value, as used by the
guard at streams.ts line 33 (`newEvent.device_serial && newEvent.timestamp`):
undefined and the empty string are falsy, every other string is truthy. -/
def truthy : Option String → Bool
  | none => false
  | some s => s ≠ ""

/-- The state owned by one `useJobResultStream` hook instance:
`stream` and `isConnected` are the two useState cells (streams.ts lines
13-14); `channelClosed` records whether the current EventSource has had
`close()` called on it (after which no handler fires again). -/
structure HookState where
  stream : List StreamEvent
  isConnected : Bool
  channelClosed : Bool
deriving DecidableEq

/-- Initial hook state on mount: empty stream, not connected, channel
freshly created by the effect (streams.ts lines 13-22). -/
def initState : HookState := { stream := [], isConnected := false, channelClosed := false }

/-- An occurrence on the push channel, as seen by the three EventSource
handlers.  The payload of a message is represented by its JSON.parse
outcome: `none` stands for data that JSON.parse rejects (the parse throws),
`some ev` for data parsing to the object `ev`. -/
inductive ChannelEvent where
  | onopen : ChannelEvent
  | onmessage : Option StreamEvent → ChannelEvent
  | onerror : ChannelEvent
deriving DecidableEq

/-- The body of the onmessage handler (streams.ts lines 28-36).
`JSON.parse(event.data)` is not wrapped in try/catch, so an unparseable
payload makes the handler throw (`Except.error`); a parsed event is
prepended to the stream when both `device_serial` and `timestamp` are
truthy, and otherwise ignored. -/
def handleMessage (st : HookState) (data : Option StreamEvent) : Except String HookState :=
  match data with
  | none => Except.error "SyntaxError"
  | some newEvent =>
    if truthy newEvent.device_serial && truthy newEvent.timestamp then
      Except.ok { st with stream := newEvent :: st.stream }
    else
      Except.ok st

/-- One channel occurrence applied to the hook state.  After
`eventSource.close()` no handler fires, so a closed channel leaves the
state unchanged.  `onopen` sets `isConnected` (line 24-26); `onmessage`
runs `handleMessage`, and when that throws the exception propagates out of
the handler with no state mutated (the throw happens before any setState);
`onerror` sets `isConnected` to false and closes the source (lines 38-41). -/
def step (st : HookState) (e : ChannelEvent) : HookState :=
  if st.channelClosed then st
  else
    match e with
    | ChannelEvent.onopen => { st with isConnected := true }
    | ChannelEvent.onmessage data =>
      match handleMessage st data with
      | Except.ok st2 => st2
      | Except.error _ => st
    | ChannelEvent.onerror => { st with isConnected := false, channelClosed := true }

/-- A sequence of channel occurrences processed in arrival order. -/
def run (st : HookState) (es : List ChannelEvent) : HookState :=
  es.foldl step st

/-- The effect cleanup (streams.ts lines 43-45): `eventSource.close()`.
Closing is idempotent and releases nothing twice: it only marks the source
closed. -/
def cleanup (st : HookState) : HookState :=
  { st with channelClosed := true }

/-- The hook's reaction to a change of the `jobId` prop while the component
stays mounted: React runs the old effect's cleanup (closing the old
EventSource) and then the effect body again (creating a fresh, not yet
closed EventSource).  Neither resets the `stream` nor the `isConnected`
useState cells — there is no `setStream([])` anywhere in the effect. -/
def jobChange (st : HookState) : HookState :=
  { stream := st.stream, isConnected := st.isConnected, channelClosed := false }

/-- The Event Timeline Store's append: streams.ts line 34,
`setStream((prevStream) => [newEvent, ...prevStream])` — insertion at the
head. -/
def append (t : List StreamEvent) (e : StreamEvent) : List StreamEvent :=
  e :: t

/-- The Event Timeline Store's read: the current `stream` value, rendered
as-is (job.tsx line 131 maps over it without sorting or filtering). -/
def all (t : List StreamEvent) : List StreamEvent :=
  t

/-- A whole insertion sequence applied to the store, in order. -/
def appendAll (t : List StreamEvent) (es : List StreamEvent) : List StreamEvent :=
  es.foldl append t

/-- The polled Job snapshot (spec section 3; fields read by job.tsx).  The
generated client types every field as possibly absent, and job.tsx guards
each access with optional chaining. -/
structure Job where
  job_id : Option String := none
  status : Option String := none
  device_serials : Option (List String) := none
  duration : Option Nat := none
  created_at : Option String := none
  result_summary : Option String := none
deriving DecidableEq

/-- The status string handed to the job-level badge: job.tsx line 97,
`jobData?.status ?? "pending"`. -/
def displayedJobStatus (jobData : Option Job) : String :=
  (jobData.bind Job.status).getD "pending"

/-- The chip color classes of the presentation adapter (job.tsx lines 20-31). -/
inductive ChipColor where
  | warning : ChipColor
  | primary : ChipColor
  | success : ChipColor
  | danger : ChipColor
deriving DecidableEq

/-- The `statuses` label table of job.tsx lines 10-18; a JavaScript object
lookup yields undefined (`none`) for a key outside the table. -/
def statuses (s : String) : Option String :=
  if s = "pending" then some "Pending"
  else if s = "running" then some "Running"
  else if s = "starting" then some "Starting"
  else if s = "completed" then some "Completed"
  else if s = "failed" then some "Failed"
  else if s = "partial" then some "Partial Success"
  else if s = "uploading" then some "Uploading"
  else none

/-- The `statuses_colors` table of job.tsx lines 20-31. -/
def statuses_colors (s : String) : Option ChipColor :=
  if s = "pending" then some ChipColor.warning
  else if s = "starting" then some ChipColor.warning
  else if s = "running" then some ChipColor.primary
  else if s = "completed" then some ChipColor.success
  else if s = "failed" then some ChipColor.danger
  else if s = "uploading" then some ChipColor.primary
  else if s = "partial" then some ChipColor.warning
  else none

/-- The `statuses_text_colors` table of job.tsx lines 33-41. -/
def statuses_text_colors (s : String) : Option String :=
  if s = "pending" then some "text-black"
  else if s = "starting" then some "text-black"
  else if s = "running" then some "text-white"
  else if s = "completed" then some "text-white"
  else if s = "failed" then some "text-white"
  else if s = "uploading" then some "text-white"
  else if s = "partial" then some "text-black"
  else none

/-- What the ChipStatus component renders: the color prop, the text-color
class appended to the className, and the chip's label child.  A key outside
the tables yields `none` for each (undefined color, "undefined" class,
empty children); the component never throws. -/
structure ChipRender where
  color : Option ChipColor
  textColor : Option String
  label : Option String
deriving DecidableEq

/-- The ChipStatus component (job.tsx lines 43-53): three pure table
lookups on the status string, no conditional branching and no coercion of
an unknown key to a known one. -/
def ChipStatus (status : String) : ChipRender :=
  { color := statuses_colors status
  , textColor := statuses_text_colors status
  , label := statuses status }

/-- The console output produced by one ChipStatus render: the component
body (job.tsx lines 43-53) contains no console call of any kind, for any
status value, so the list is empty. -/
def chipStatusLogs (_status : String) : List String :=
  []

/-- The closed status taxonomy of spec section 4.1. -/
def knownStatuses : List String :=
  ["pending", "starting", "running", "uploading", "completed", "failed", "partial"]

/-- The merged structure the JobPage hands to presentation: the badge
status from the snapshot (job.tsx line 97), the timeline from the hook's
stream (line 131), and the live flag from the hook's isConnected
(line 112). -/
structure MergedView where
  jobStatus : String
  timeline : List StreamEvent
  isLive : Bool
deriving DecidableEq

/-- The JobPage's projection of its two data sources into the rendered
view (job.tsx lines 84-137). -/
def mergedView (jobData : Option Job) (hook : HookState) : MergedView :=
  { jobStatus := displayedJobStatus jobData
  , timeline := hook.stream
  , isLive := hook.isConnected }

/-- Modelled from the spec: the Snapshot Poller (spec section 4.4).  The
polling hook is the generated api-client wrapper around the SWR library's
data hook, which is not among the provided sources.  Spec: "Each fetch
either succeeds (updating the last-known Job snapshot) or fails (the
previous snapshot is retained — a failed poll never regresses the
displayed state to unknown)." -/
def pollStep (snapshot : Option Job) (result : Except Unit Job) : Option Job :=
  match result with
  | Except.ok j => some j
  | Except.error _ => snapshot

/-- Modelled from the spec: a sequence of poll ticks, each applying
`pollStep`; spec section 4.4: "Polling continues across error responses". -/
def pollRun (snapshot : Option Job) (results : List (Except Unit Job)) : Option Job :=
  results.foldl pollStep snapshot

/-- A concrete valid event, used at counterexample and witness inputs. -/
def eventA : StreamEvent :=
  { device_serial := some "D1"
  , status := some "running"
  , message := some "starting trace"
  , timestamp := some "2024-01-01T00:00:00Z"
  , trace_id := none }

/-- A concrete event with a missing timestamp, dropped by the guard. -/
def eventNoTimestamp : StreamEvent :=
  { device_serial := some "D1"
  , status := some "running"
  , message := some "m"
  , timestamp := none
  , trace_id := none }

/- ------------------------------------------------------------------ -/
/- Helper lemmas -/
/- ------------------------------------------------------------------ -/

theorem step_closed (st : HookState) (hc : st.channelClosed = true) (e : ChannelEvent) :
    step st e = st := by
  simp [step, hc]

theorem run_closed (st : HookState) (hc : st.channelClosed = true) :
    ∀ es : List ChannelEvent, run st es = st := by
  intro es
  induction es with
  | nil => rfl
  | cons e es ih =>
    show run (step st e) es = st
    rw [step_closed st hc e]
    exact ih

theorem truthy_iff (o : Option String) :
    truthy o = true ↔ (o ≠ none ∧ o ≠ some "") := by
  cases o with
  | none => simp [truthy]
  | some s => simp [truthy]

theorem appendAll_eq (es : List StreamEvent) :
    ∀ t : List StreamEvent, appendAll t es = es.reverse ++ t := by
  induction es with
  | nil => intro t; rfl
  | cons e es ih =>
    intro t
    show appendAll (append t e) es = (e :: es).reverse ++ t
    rw [ih (append t e)]
    simp [append]

/- ------------------------------------------------------------------ -/
/- Claim theorems -/
/- ------------------------------------------------------------------ -/

/-- Claim C1 (code bug, evaluated at the failing input): the claim says the
store is emptied when the active job identifier changes from A to B, so no
event appended for A appears in B's sequence.  The code keeps the JobPage
mounted when the `:id` route parameter changes and `useJobResultStream`
never resets its `stream` state on that change, so an event received while
viewing job A is still in the stream shown for job B. -/
theorem timeline_survives_job_change :
    (jobChange (step (step initState ChannelEvent.onopen)
        (ChannelEvent.onmessage (some eventA)))).stream = [eventA] := by
  decide

/-- Claim C2: after any insertion sequence, `all` returns exactly the
reverse of that sequence appended in front of the prior contents: events
come back in reverse insertion order regardless of their timestamps, no
event is removed or reordered once inserted, and no deduplication happens
(the multiplicity of each event equals its insertion multiplicity). -/
theorem all_is_reverse_of_insertions (t es : List StreamEvent) :
    all (appendAll t es) = es.reverse ++ all t ∧
    ∀ e : StreamEvent, (all (appendAll t es)).count e = es.count e + (all t).count e := by
  refine ⟨appendAll_eq es t, ?_⟩
  intro e
  rw [all, all, appendAll_eq es t, List.count_append, List.count_reverse]

/-- Claim C3: the job-level status of the merged view depends only on the
polled snapshot: for a fixed snapshot and any two sequences of channel
occurrences (including events carrying a different status), the displayed
job status is identical. -/
theorem job_status_independent_of_stream (jobData : Option Job)
    (es1 es2 : List ChannelEvent) :
    (mergedView jobData (run initState es1)).jobStatus =
      (mergedView jobData (run initState es2)).jobStatus := rfl

/-- Claim C4 (counterexample): the claim says an unparseable payload is
dropped "without raising an error", but JSON.parse at streams.ts line 29
is not wrapped in try/catch, so the onmessage handler throws on that
payload. -/
theorem malformed_payload_raises :
    handleMessage initState none = Except.error "SyntaxError" := rfl

/-- Claim C4 (amended): for every unparseable payload, the onmessage
handler raises (the parse error propagates out of it uncaught), but the
individual event is effectively dropped — the hook state after the
occurrence is unchanged: same Timeline, same isConnected, and the channel
is not torn down by this failure alone. -/
theorem malformed_payload_drops_without_teardown (st : HookState) :
    (∃ msg, handleMessage st none = Except.error msg) ∧
    step st (ChannelEvent.onmessage none) = st := by
  refine ⟨⟨"SyntaxError", rfl⟩, ?_⟩
  cases hcb : st.channelClosed with
  | true => simp [step, hcb]
  | false => simp [step, hcb, handleMessage]

/-- Claim C5: when the channel reports a transport error, isConnected
becomes false and, since the errored source is closed and never retried,
no later channel occurrence for that view ever makes it true again; every
event received before the error remains in the Timeline unchanged. -/
theorem error_disconnects_permanently (st : HookState)
    (h : st.channelClosed = false) (es : List ChannelEvent) :
    (run (step st ChannelEvent.onerror) es).isConnected = false ∧
    (run (step st ChannelEvent.onerror) es).stream = st.stream := by
  have hstep : step st ChannelEvent.onerror =
      { st with isConnected := false, channelClosed := true } := by
    simp [step, h]
  rw [hstep, run_closed _ rfl es]
  exact ⟨rfl, rfl⟩

/-- Claim C5 witness: a concrete open, connected state with one received
event, hit by a transport error and then further channel occurrences. -/
theorem error_disconnects_permanently_witness :
    (run (step (step (step initState ChannelEvent.onopen)
          (ChannelEvent.onmessage (some eventA))) ChannelEvent.onerror)
        [ChannelEvent.onopen, ChannelEvent.onmessage (some eventA)]).isConnected = false ∧
    (run (step (step (step initState ChannelEvent.onopen)
          (ChannelEvent.onmessage (some eventA))) ChannelEvent.onerror)
        [ChannelEvent.onopen, ChannelEvent.onmessage (some eventA)]).stream =
      (step (step initState ChannelEvent.onopen)
        (ChannelEvent.onmessage (some eventA))).stream :=
  error_disconnects_permanently
    (step (step initState ChannelEvent.onopen) (ChannelEvent.onmessage (some eventA)))
    (by decide)
    [ChannelEvent.onopen, ChannelEvent.onmessage (some eventA)]

/-- Claim C6: teardown is idempotent and the closed state is terminal:
closing twice equals closing once (no error, no double release), the view's
cleanup closes the channel from every state, and no channel occurrence
transitions a closed channel anywhere. -/
theorem close_idempotent_closed_terminal (st : HookState) (e : ChannelEvent) :
    cleanup (cleanup st) = cleanup st ∧
    (cleanup st).channelClosed = true ∧
    step (cleanup st) e = cleanup st :=
  ⟨rfl, rfl, step_closed (cleanup st) rfl e⟩

/-- Claim C7 (counterexample): the claim says an unrecognized status value
is logged as a data-contract violation; ChipStatus performs no logging at
all — at the unknown status "cancelled" it renders the undefined fallback
and its console output is empty. -/
theorem unknown_status_not_logged :
    ChipStatus "cancelled" = { color := none, textColor := none, label := none } ∧
    chipStatusLogs "cancelled" = [] := by
  exact ⟨by decide, rfl⟩

/-- Claim C7 (amended): for every status string outside the closed
taxonomy, ChipStatus renders a total fallback — undefined color, text
class and label, never a crash and never a coercion to a known status —
but nothing is logged: no data-contract violation is reported. -/
theorem unknown_status_fallback_no_log (s : String) (h : s ∉ knownStatuses) :
    ChipStatus s = { color := none, textColor := none, label := none } ∧
    chipStatusLogs s = [] := by
  simp [knownStatuses] at h
  obtain ⟨h1, h2, h3, h4, h5, h6, h7⟩ := h
  refine ⟨?_, rfl⟩
  simp [ChipStatus, statuses, statuses_colors, statuses_text_colors,
    h1, h2, h3, h4, h5, h6, h7]

/-- Claim C7 amended witness: the unknown status "queued". -/
theorem unknown_status_fallback_no_log_witness :
    "queued" ∉ knownStatuses ∧
    (ChipStatus "queued" = { color := none, textColor := none, label := none } ∧
      chipStatusLogs "queued" = []) :=
  ⟨by decide, unknown_status_fallback_no_log "queued" (by decide)⟩

/-- Claim C8 (spec-modelled poller): a failed poll tick leaves the
last-known snapshot — and hence the displayed job status — unchanged, and
polling continues: every later sequence of tick results is processed
exactly as it would have been without the failure. -/
theorem failed_poll_retains_snapshot (snap : Option Job)
    (results : List (Except Unit Job)) :
    pollStep snap (Except.error ()) = snap ∧
    displayedJobStatus (pollStep snap (Except.error ())) = displayedJobStatus snap ∧
    pollRun (pollStep snap (Except.error ())) results = pollRun snap results :=
  ⟨rfl, rfl, rfl⟩

/-- Claim C9: a parsed pushed event is prepended to the Timeline exactly
when both its device_serial and its timestamp are present and non-empty;
otherwise the occurrence leaves the whole hook state — Timeline and
connection state — unchanged. -/
theorem append_iff_fields_truthy (st : HookState) (ev : StreamEvent)
    (h : st.channelClosed = false) :
    step st (ChannelEvent.onmessage (some ev)) =
      if (ev.device_serial ≠ none ∧ ev.device_serial ≠ some "") ∧
          (ev.timestamp ≠ none ∧ ev.timestamp ≠ some "")
      then { st with stream := ev :: st.stream }
      else st := by
  by_cases hc : (ev.device_serial ≠ none ∧ ev.device_serial ≠ some "") ∧
      (ev.timestamp ≠ none ∧ ev.timestamp ≠ some "")
  · rw [if_pos hc]
    have h1 : truthy ev.device_serial = true := (truthy_iff _).mpr hc.1
    have h2 : truthy ev.timestamp = true := (truthy_iff _).mpr hc.2
    simp [step, h, handleMessage, h1, h2]
  · rw [if_neg hc]
    have hb : (truthy ev.device_serial && truthy ev.timestamp) = false := by
      cases hd : truthy ev.device_serial with
      | false => rfl
      | true =>
        cases ht : truthy ev.timestamp with
        | false => rfl
        | true => exact absurd ⟨(truthy_iff _).mp hd, (truthy_iff _).mp ht⟩ hc
    simp [step, h, handleMessage, hb]

/-- Claim C9 witness: an event with a present device_serial but a missing
timestamp is discarded, leaving the fresh hook state unchanged. -/
theorem append_iff_fields_truthy_witness :
    initState.channelClosed = false ∧
    step initState (ChannelEvent.onmessage (some eventNoTimestamp)) = initState := by
  refine ⟨rfl, ?_⟩
  have h := append_iff_fields_truthy initState eventNoTimestamp rfl
  rw [if_neg (by decide)] at h
  exact h

/-- Claim C10: before any Job snapshot has been received (the snapshot is
null), the job-level badge receives the status "pending" and renders the
Pending chip, not an empty or unknown indicator. -/
theorem null_snapshot_renders_pending :
    displayedJobStatus none = "pending" ∧
    ChipStatus (displayedJobStatus none) =
      { color := some ChipColor.warning
      , textColor := some "text-black"
      , label := some "Pending" } := by
  exact ⟨rfl, by decide⟩

end Prism
